import Mathlib

/-!
# Socket transport of the asio framework (`components/asio/asio_socket.c`)

A shallow embedding of the connector, the poller, the I/O pump, teardown, the
per-tick state machine and the factory, followed by theorems about them.

The process state is an explicit `World` value: the list of open
descriptors, the global `errno`, the chronological trace of the external
calls the code made, which of the connection's two buffers have been
destroyed, and whether undefined behaviour (a second `buf_destroy` of the same
buffer) has been executed.  The outcome of every external call (what `socket`,
`connect`, `select`, `send`, `recv` return) is an input of the embedding.
Diagnostics (`fprintf`, `perror`, `ESP_LOGE`) do not influence control flow and
are not modelled.
-/

namespace AsioSocket

/-! ## Constants -/

/-- Line 31: `#define INVALID_SOCKET (-1)`. -/
def INVALID_SOCKET : Int := -1

/-- Protocol number of TCP in `netinet/in.h`. -/
def IPPROTO_TCP : Nat := 6

/-- The `errno` value of an interrupted call. -/
def EINTR : Int := 4

/-- The `errno` value of a bad descriptor. -/
def EBADF : Int := 9

/-- The `errno` value of a non-blocking call that would block. -/
def EWOULDBLOCK : Int := 11

/-- Modelled from the spec: `asio.h` is not under src; the three readiness
flags are distinct single-bit masks of `poll_flags` (RecvReady). -/
def POLL_FLAG_RECV : Nat := 1

/-- Modelled from the spec: `asio.h` is not under src; the three readiness
flags are distinct single-bit masks of `poll_flags` (SendReady). -/
def POLL_FLAG_SEND : Nat := 2

/-- Modelled from the spec: `asio.h` is not under src; the three readiness
flags are distinct single-bit masks of `poll_flags` (ErrorReady). -/
def POLL_FLAG_ERR : Nat := 4

/-- Modelled from the spec: `asio.h` is not under src; a tick returns
no-change (`ASIO_OK`, the value `0` of line 157), an error (`ASIO_ERR`) or a
close request (`ASIO_CLOSE_CONNECTION`). -/
inductive asio_result_t where
  | ASIO_OK
  | ASIO_ERR
  | ASIO_CLOSE_CONNECTION
deriving DecidableEq

/-- Modelled from the spec: `asio.h` is not under src; the connection state is
one of New, Connected, Closing, so the `default:` arm of the switch of line 283
has no value to run on. -/
inductive asio_conn_state_t where
  | ASIO_CONN_NEW
  | ASIO_CONN_CONNECTED
  | ASIO_CONN_CLOSING
deriving DecidableEq

/-! ## The byte buffer collaborator -/

/-- Modelled from the spec: `common_buffer.h` is not under src; a buffer is a
fixed region `base` (its length is the capacity) with a read cursor and a write
cursor, both kept as offsets from `base`. -/
structure buffer_t where
  base : List Nat
  read_pos : Nat
  write_pos : Nat
deriving DecidableEq

/-- Modelled from the spec: `buf_data_unread` is not under src; the unread
length is the distance from the read cursor to the write cursor. -/
def buf_data_unread (buf : buffer_t) : Nat :=
  buf.write_pos - buf.read_pos

/-- Modelled from the spec: `buf_free_capacity` is not under src; the free
capacity is the room behind the write cursor. -/
def buf_free_capacity (buf : buffer_t) : Nat :=
  buf.base.length - buf.write_pos

/-- Modelled from the spec: `buf_free_capacity_after_purge` is not under src;
the free capacity the buffer would have once its unread bytes are moved to the
front. -/
def buf_free_capacity_after_purge (buf : buffer_t) : Nat :=
  buf.base.length - buf_data_unread buf

/-- The unread bytes of a buffer, in order: the region between the cursors. -/
def buf_unread_bytes (buf : buffer_t) : List Nat :=
  (buf.base.drop buf.read_pos).take (buf.write_pos - buf.read_pos)

/-- Modelled from the spec: `buf_move_remaining_bytes_to_front` is not under
src; compaction relocates the unread bytes to the front of the region, the
read cursor goes to the base and the write cursor right behind the bytes. -/
def buf_move_remaining_bytes_to_front (buf : buffer_t) : buffer_t :=
  { base := buf_unread_bytes buf ++ buf.base.drop (buf_unread_bytes buf).length
    read_pos := 0
    write_pos := buf_data_unread buf }

/-- Modelled from the spec: `buf_drain` is not under src; it advances the read
cursor by the given count. -/
def buf_drain (buf : buffer_t) (len : Nat) : buffer_t :=
  { buf with read_pos := buf.read_pos + len }

/-- Modelled from the spec: `buf_fill` is not under src; it advances the write
cursor by the given count. -/
def buf_fill (buf : buffer_t) (len : Nat) : buffer_t :=
  { buf with write_pos := buf.write_pos + len }

/-- Cursor discipline of a buffer: read cursor, write cursor and capacity are
ordered. -/
def buf_wf (buf : buffer_t) : Prop :=
  buf.read_pos ≤ buf.write_pos ∧ buf.write_pos ≤ buf.base.length

instance (buf : buffer_t) : Decidable (buf_wf buf) := by
  unfold buf_wf; exact inferInstance

/-! ## The operating system -/

/-- One external call, as recorded in the trace of the world. -/
inductive Call where
  | getaddrinfo
  | freeaddrinfo
  | socket (ret : Int)
  | setsockopt (fd : Int)
  | connect (fd : Int)
  | close (fd : Int)
  | fcntl (fd : Int)
  | select (fd : Int)
  | send (fd : Int) (len : Nat)
  | recv (fd : Int) (len : Nat)
  | buf_destroy_recv
  | buf_destroy_send
deriving DecidableEq

/-- The two buffers the I/O context of the connection points to. -/
inductive buf_slot where
  | recv_buf
  | send_buf
deriving DecidableEq

/-- The part of the process state the code acts on: the open descriptors, the
global `errno`, the chronological list of external calls made so far, the
buffers of the connection that `buf_destroy` has released, and `fault`, set
once the code has executed undefined behaviour (the double free of a buffer);
from then on the model no longer describes the program. -/
structure World where
  open_fds : List Int
  errno : Int
  trace : List Call
  destroyed : List buf_slot
  fault : Bool
deriving DecidableEq

/-- Record one external call at the end of the trace. -/
def World.log (w : World) (c : Call) : World :=
  { w with trace := w.trace ++ [c] }

/-- One resolver candidate (`struct addrinfo`) together with the outcome of
each call the connector may make on it: what `socket` returns
(`INVALID_SOCKET` or the new descriptor), what `setsockopt` returns (`0` on
success), what `connect` returns (`0`, or `-1` on failure), and the `errno`
left by the call that fails. -/
structure addrinfo where
  ai_protocol : Nat
  socket_ret : Int
  setsockopt_ret : Int
  connect_ret : Int
  err : Int
deriving DecidableEq

/-- The call `socket(...)`: on failure `errno` is set, on success the new
descriptor is open. -/
def sys_socket (p : addrinfo) (w : World) : Int × World :=
  let w := w.log (Call.socket p.socket_ret)
  if p.socket_ret = INVALID_SOCKET then (p.socket_ret, { w with errno := p.err })
  else (p.socket_ret, { w with open_fds := p.socket_ret :: w.open_fds })

/-- The call `setsockopt(fd, IPPROTO_TCP, TCP_NODELAY, ...)`. -/
def sys_setsockopt (p : addrinfo) (fd : Int) (w : World) : Int × World :=
  let w := w.log (Call.setsockopt fd)
  if p.setsockopt_ret = 0 then (p.setsockopt_ret, w)
  else (p.setsockopt_ret, { w with errno := p.err })

/-- The call `connect(fd, ...)`. -/
def sys_connect (p : addrinfo) (fd : Int) (w : World) : Int × World :=
  let w := w.log (Call.connect fd)
  if p.connect_ret = 0 then (p.connect_ret, w)
  else (p.connect_ret, { w with errno := p.err })

/-- The call `close(fd)`: an open descriptor is released, any other value
fails with `EBADF`. -/
def sys_close (fd : Int) (w : World) : World :=
  let w := w.log (Call.close fd)
  if fd ∈ w.open_fds then { w with open_fds := w.open_fds.erase fd }
  else { w with errno := EBADF }

/-! ## Connector (lines 39-129) -/

/-- The candidate loop of lines 58-111.  The arguments are the rest of the
list from `p` on, the current value of the variable `fd`, and the world; the
result says whether the loop left through `break` (`p != NULL`), and gives the
final `fd` and world. -/
def connect_loop : List addrinfo → Int → World → Bool × Int × World
  | [], fd, w => (false, fd, w)
  | p :: rest, _, w =>
    let r := sys_socket p w
    let fd := r.1
    let w := r.2
    if fd = INVALID_SOCKET then connect_loop rest fd w
    else if p.ai_protocol = IPPROTO_TCP then
      let s := sys_setsockopt p fd w
      if s.1 ≠ 0 then connect_loop rest fd s.2
      else
        let c := sys_connect p fd s.2
        if c.1 = INVALID_SOCKET then connect_loop rest fd (sys_close fd c.2)
        else (true, fd, c.2)
    else
      let c := sys_connect p fd w
      if c.1 = INVALID_SOCKET then connect_loop rest fd (sys_close fd c.2)
      else (true, fd, c.2)

/-- The function `asio_socket_connect`.  `gai_err` and `si` are what
`getaddrinfo` returns for the host and port; `verbose` only selects
diagnostics. -/
def asio_socket_connect (gai_err : Int) (si : List addrinfo) (verbose : Bool)
    (w : World) : Int × World :=
  let w := w.log Call.getaddrinfo
  if gai_err ≠ 0 then (INVALID_SOCKET, w)
  else
    let r := connect_loop si INVALID_SOCKET w
    if r.1 = false then (INVALID_SOCKET, r.2.2.log Call.freeaddrinfo)
    else (r.2.1, (r.2.2.log Call.freeaddrinfo).log (Call.fcntl r.2.1))

/-! ## The connection record -/

/-- Lines 33-36: the I/O context owns the receive and the send buffer. -/
structure asio_socket_context_t where
  recv_buf : buffer_t
  send_buf : buffer_t
deriving DecidableEq

/-- Modelled from the spec: `asio_connection_t` is declared in `asio.h`, which
is not under src; the fields kept are the ones this file reads or writes
(`fd`, `state`, `poll_flags`, `io_ctx`).  The target, the user data, the
registry reference and the handler pointers are never read back here. -/
structure asio_connection_t where
  fd : Int
  state : asio_conn_state_t
  poll_flags : Nat
  io_ctx : asio_socket_context_t
deriving DecidableEq

/-! ## Poller (lines 132-178) -/

/-- The outcome of the zero-timeout `select` on the one descriptor: the return
value `n`, the `errno` left when `n < 0`, and whether the descriptor is in the
returned read, write and error sets. -/
structure SelectOutcome where
  n : Int
  err : Int
  in_readset : Bool
  in_writeset : Bool
  in_errset : Bool
deriving DecidableEq

/-- The call `select(fd + 1, ...)`: a negative return sets `errno`. -/
def sys_select (sel : SelectOutcome) (fd : Int) (w : World) : Int × World :=
  let w := w.log (Call.select fd)
  if sel.n < 0 then (sel.n, { w with errno := sel.err }) else (sel.n, w)

/-- The function `asio_socket_poll`. -/
def asio_socket_poll (sel : SelectOutcome) (w : World) (conn : asio_connection_t) :
    asio_result_t × asio_connection_t × World :=
  let conn := { conn with poll_flags := 0 }
  let r := sys_select sel conn.fd w
  let n := r.1
  let w := r.2
  if n < 0 then
    if w.errno = EINTR then (asio_result_t.ASIO_OK, conn, w)
    else (asio_result_t.ASIO_ERR, conn, w)
  else if n = 0 then (asio_result_t.ASIO_OK, conn, w)
  else
    let conn := if sel.in_writeset then
        { conn with poll_flags := conn.poll_flags ||| POLL_FLAG_SEND } else conn
    let conn := if sel.in_readset then
        { conn with poll_flags := conn.poll_flags ||| POLL_FLAG_RECV } else conn
    let conn := if sel.in_errset then
        { conn with poll_flags := conn.poll_flags ||| POLL_FLAG_ERR } else conn
    (asio_result_t.ASIO_OK, conn, w)

/-! ## I/O pump (lines 182-248) -/

/-- The outcome of `send`: a count of bytes taken by the kernel, or a failure
with its `errno`. -/
inductive SendOutcome where
  | sent (n : Nat)
  | fail (err : Int)
deriving DecidableEq

/-- The outcome of `recv`: the bytes delivered (none at end of stream), or a
failure with its `errno`. -/
inductive RecvOutcome where
  | data (bytes : List Nat)
  | fail (err : Int)
deriving DecidableEq

/-- The call `send(fd, read_pos, len, 0)`: never takes more than `len` bytes;
a failure returns `-1` and sets `errno`, a success leaves `errno` alone. -/
def sys_send (out : SendOutcome) (fd : Int) (len : Nat) (w : World) : Int × World :=
  let w := w.log (Call.send fd len)
  match out with
  | SendOutcome.sent n => (((min n len : Nat) : Int), w)
  | SendOutcome.fail e => (-1, { w with errno := e })

/-- The call `recv(fd, write_pos, len, 0)`: at most `len` bytes are stored in
the region from the write cursor on; a failure returns `-1` and sets `errno`, a
success (end of stream included) leaves `errno` alone. -/
def sys_recv (out : RecvOutcome) (fd : Int) (buf : buffer_t) (len : Nat) (w : World) :
    Int × buffer_t × World :=
  let w := w.log (Call.recv fd len)
  match out with
  | RecvOutcome.data bytes =>
    let got := bytes.take len
    (((got.length : Nat) : Int),
     { buf with base := buf.base.take buf.write_pos ++ got ++
                          buf.base.drop (buf.write_pos + got.length) },
     w)
  | RecvOutcome.fail e => (-1, buf, { w with errno := e })

/-- The receive and error part of `asio_socket_rw`, lines 209-247. -/
def asio_socket_rw_recv (rcv : RecvOutcome) (w : World) (conn : asio_connection_t) :
    asio_result_t × asio_connection_t × World :=
  let free_cap := buf_free_capacity conn.io_ctx.recv_buf
  let purge := decide (free_cap < 1 ∧ buf_free_capacity_after_purge conn.io_ctx.recv_buf > 0)
  let conn := if purge then
      { conn with io_ctx := { conn.io_ctx with
          recv_buf := buf_move_remaining_bytes_to_front conn.io_ctx.recv_buf } }
    else conn
  let free_cap := if purge then buf_free_capacity conn.io_ctx.recv_buf else free_cap
  let err_path (conn : asio_connection_t) (w : World) :
      asio_result_t × asio_connection_t × World :=
    if conn.poll_flags &&& POLL_FLAG_ERR ≠ 0 then
      (asio_result_t.ASIO_CLOSE_CONNECTION, conn, w)
    else (asio_result_t.ASIO_OK, conn, w)
  if conn.poll_flags &&& POLL_FLAG_RECV ≠ 0 ∧ free_cap > 0 then
    let r := sys_recv rcv conn.fd conn.io_ctx.recv_buf free_cap w
    let bytes_recv := r.1
    let conn := { conn with io_ctx := { conn.io_ctx with recv_buf := r.2.1 } }
    let w := r.2.2
    if bytes_recv ≤ 0 then
      if w.errno = EINTR ∨ w.errno = EWOULDBLOCK then err_path conn w
      else (asio_result_t.ASIO_CLOSE_CONNECTION, conn, w)
    else
      err_path { conn with io_ctx := { conn.io_ctx with
          recv_buf := buf_fill conn.io_ctx.recv_buf bytes_recv.toNat } } w
  else err_path conn w

/-- The function `asio_socket_rw`: poll (its result is not looked at, line
187), then the send path of lines 191-207, then receive and error. -/
def asio_socket_rw (sel : SelectOutcome) (snd : SendOutcome) (rcv : RecvOutcome)
    (w : World) (conn : asio_connection_t) :
    asio_result_t × asio_connection_t × World :=
  let p := asio_socket_poll sel w conn
  let conn := p.2.1
  let w := p.2.2
  let bytes_unsent := buf_data_unread conn.io_ctx.send_buf
  if conn.poll_flags &&& POLL_FLAG_SEND ≠ 0 ∧ bytes_unsent > 0 then
    let r := sys_send snd conn.fd bytes_unsent w
    let bytes_sent := r.1
    let w := r.2
    if bytes_sent ≤ 0 then
      if w.errno = EINTR ∨ w.errno = EWOULDBLOCK then asio_socket_rw_recv rcv w conn
      else (asio_result_t.ASIO_CLOSE_CONNECTION, conn, w)
    else
      asio_socket_rw_recv rcv w { conn with io_ctx := { conn.io_ctx with
          send_buf := buf_drain conn.io_ctx.send_buf bytes_sent.toNat } }
  else asio_socket_rw_recv rcv w conn

/-! ## Teardown (lines 251-257) -/

/-- The trace entry of `buf_destroy` on one of the two buffers. -/
def buf_destroy_call : buf_slot → Call
  | buf_slot.recv_buf => Call.buf_destroy_recv
  | buf_slot.send_buf => Call.buf_destroy_send

/-- Modelled from the spec: `buf_destroy` is not under src; it releases the
buffer the pointer refers to.  The pointer kept in the I/O context is not
cleared, so the record does not change; the buffer is gone from then on.  On a
buffer that was destroyed before, the call frees it a second time: undefined
behaviour, recorded as `fault`. -/
def buf_destroy (slot : buf_slot) (w : World) : World :=
  let w := w.log (buf_destroy_call slot)
  if slot ∈ w.destroyed then { w with fault := true }
  else { w with destroyed := slot :: w.destroyed }

/-- The function `asio_socket_free`: close the descriptor, destroy the receive
buffer, destroy the send buffer.  The record itself is not written, and
nothing in it tells whether the function ran before. -/
def asio_socket_free (w : World) (conn : asio_connection_t) : World :=
  buf_destroy buf_slot.send_buf (buf_destroy buf_slot.recv_buf (sys_close conn.fd w))

/-! ## State machine (lines 260-288) -/

/-- The outcomes of all external calls one tick may make. -/
structure TickEnv where
  gai_err : Int
  si : List addrinfo
  sel : SelectOutcome
  snd : SendOutcome
  rcv : RecvOutcome
deriving DecidableEq

/-- The function `asio_socket_event`. -/
def asio_socket_event (env : TickEnv) (w : World) (conn : asio_connection_t) :
    asio_result_t × asio_connection_t × World :=
  match conn.state with
  | asio_conn_state_t.ASIO_CONN_NEW =>
    let r := asio_socket_connect env.gai_err env.si true w
    let fd := r.1
    if fd < 0 then
      (asio_result_t.ASIO_ERR, { conn with state := asio_conn_state_t.ASIO_CONN_CLOSING }, r.2)
    else
      (asio_result_t.ASIO_OK,
       { conn with fd := fd, state := asio_conn_state_t.ASIO_CONN_CONNECTED }, r.2)
  | asio_conn_state_t.ASIO_CONN_CONNECTED => asio_socket_rw env.sel env.snd env.rcv w conn
  | asio_conn_state_t.ASIO_CONN_CLOSING =>
    (asio_result_t.ASIO_OK, conn, asio_socket_free w conn)

/-- Successive ticks on one connection, one environment per tick; the result
of every tick is collected in order. -/
def run_ticks : List TickEnv → World → asio_connection_t →
    List asio_result_t × asio_connection_t × World
  | [], w, conn => ([], conn, w)
  | env :: envs, w, conn =>
    let r := asio_socket_event env w conn
    let rest := run_ticks envs r.2.2 r.2.1
    (r.1 :: rest.1, rest.2.1, rest.2.2)

/-! ## Factory (lines 290-327) -/

/-- The function `asio_new_socket_connection`, as far as the record it builds
is read by the state machine.  `url_ok` is whether `url_parse` returned a
target, `calloc_ok` whether the record was allocated, `registry_ret` what
`asio_registry_add_connection` returned.  Lines 304-310 only store pointers;
what they leave behind `conn->io_ctx` is the input `io_ctx`, the context the
later ticks find in the record.  `calloc` zeroes `poll_flags`. -/
def asio_new_socket_connection (url_ok calloc_ok : Bool) (io_ctx : asio_socket_context_t)
    (registry_ret : Int) : Option asio_connection_t :=
  if url_ok = false then none
  else if calloc_ok = false then none
  else
    let conn : asio_connection_t :=
      { fd := -1, state := asio_conn_state_t.ASIO_CONN_NEW, poll_flags := 0, io_ctx := io_ctx }
    if registry_ret < 0 then none else some conn

/-! ## Predicates used by the statements -/

/-- The calls the connector makes after `getaddrinfo`. -/
def connector_step_call : Call → Bool
  | Call.freeaddrinfo => true
  | Call.socket _ => true
  | Call.setsockopt _ => true
  | Call.connect _ => true
  | Call.close _ => true
  | Call.fcntl _ => true
  | _ => false

/-- The flags the poller computes from a `select` outcome alone. -/
def flags_of_select (sel : SelectOutcome) : Nat :=
  if 0 < sel.n then
    (((if sel.in_writeset then POLL_FLAG_SEND else 0) |||
      (if sel.in_readset then POLL_FLAG_RECV else 0)) |||
      (if sel.in_errset then POLL_FLAG_ERR else 0))
  else 0

/-- The attempt on candidate `p` ends in a successful connect: `socket`
returned a descriptor, `TCP_NODELAY` was set if the protocol is TCP, and
`connect` did not fail. -/
def attempt_succeeds (p : addrinfo) : Prop :=
  p.socket_ret ≠ INVALID_SOCKET ∧
  (p.ai_protocol = IPPROTO_TCP → p.setsockopt_ret = 0) ∧
  p.connect_ret ≠ INVALID_SOCKET

instance (p : addrinfo) : Decidable (attempt_succeeds p) := by
  unfold attempt_succeeds; exact inferInstance

/-- The attempt on candidate `p` reached `connect` and `connect` failed. -/
def connect_failed (p : addrinfo) : Prop :=
  p.socket_ret ≠ INVALID_SOCKET ∧
  (p.ai_protocol = IPPROTO_TCP → p.setsockopt_ret = 0) ∧
  p.connect_ret = INVALID_SOCKET

instance (p : addrinfo) : Decidable (connect_failed p) := by
  unfold connect_failed; exact inferInstance

/-- The attempt on candidate `p` opened a socket and stopped at a failing
`setsockopt(TCP_NODELAY)`. -/
def nodelay_failed (p : addrinfo) : Bool :=
  decide (p.socket_ret ≠ INVALID_SOCKET ∧ p.ai_protocol = IPPROTO_TCP ∧ p.setsockopt_ret ≠ 0)

/-- The world after one loop iteration that ends in `continue`. -/
def world_after_failed_attempt (p : addrinfo) (w : World) : World :=
  if p.socket_ret = INVALID_SOCKET then (sys_socket p w).2
  else if p.ai_protocol = IPPROTO_TCP then
    if p.setsockopt_ret ≠ 0 then (sys_setsockopt p p.socket_ret (sys_socket p w).2).2
    else sys_close p.socket_ret
      (sys_connect p p.socket_ret (sys_setsockopt p p.socket_ret (sys_socket p w).2).2).2
  else sys_close p.socket_ret (sys_connect p p.socket_ret (sys_socket p w).2).2

/-- Whether a call is a `socket` call, whatever it returned. -/
def is_socket_call : Call → Bool
  | Call.socket _ => true
  | _ => false

/-- The world after a run of loop iterations that all end in `continue`. -/
def world_after_failed_attempts : List addrinfo → World → World
  | [], w => w
  | q :: qs, w => world_after_failed_attempts qs (world_after_failed_attempt q w)

/-- The variable `fd` after a run of loop iterations that all end in
`continue`. -/
def fd_after_failed_attempts : List addrinfo → Int → Int
  | [], fd => fd
  | q :: qs, _ => fd_after_failed_attempts qs q.socket_ret

/-! ## Concrete inputs -/

/-- A world with no open descriptor, an empty trace and both buffers alive. -/
def empty_world : World :=
  { open_fds := [], errno := 0, trace := [], destroyed := [], fault := false }

/-- A TCP candidate: `socket` returns descriptor 3, `setsockopt` fails. -/
def nodelay_failing_candidate : addrinfo :=
  { ai_protocol := 6, socket_ret := 3, setsockopt_ret := -1, connect_ret := 0, err := 22 }

/-- A TCP candidate: `socket` returns descriptor 3, `connect` is refused
(`errno` 111). -/
def refused_candidate : addrinfo :=
  { ai_protocol := 6, socket_ret := 3, setsockopt_ret := 0, connect_ret := -1, err := 111 }

/-- A TCP candidate on which every call succeeds; `socket` returns 4. -/
def good_candidate : addrinfo :=
  { ai_protocol := 6, socket_ret := 4, setsockopt_ret := 0, connect_ret := 0, err := 0 }

/-- An empty buffer of capacity four. -/
def empty_buf : buffer_t :=
  { base := [0, 0, 0, 0], read_pos := 0, write_pos := 0 }

/-- An I/O context with two empty buffers. -/
def empty_ctx : asio_socket_context_t :=
  { recv_buf := empty_buf, send_buf := empty_buf }

/-- A `select` outcome with nothing ready. -/
def select_nothing : SelectOutcome :=
  { n := 0, err := 0, in_readset := false, in_writeset := false, in_errset := false }

/-- A tick environment: the resolver finds nothing, nothing is ready. -/
def quiet_env : TickEnv :=
  { gai_err := 0, si := [], sel := select_nothing, snd := SendOutcome.sent 0,
    rcv := RecvOutcome.fail EWOULDBLOCK }

/-- A tick environment whose resolver yields one candidate that connects. -/
def connecting_env : TickEnv :=
  { gai_err := 0, si := [good_candidate], sel := select_nothing, snd := SendOutcome.sent 0,
    rcv := RecvOutcome.fail EWOULDBLOCK }

/-- A record as the factory builds it. -/
def new_conn : asio_connection_t :=
  { fd := -1, state := asio_conn_state_t.ASIO_CONN_NEW, poll_flags := 0, io_ctx := empty_ctx }

/-- A record in state Closing that still holds descriptor 3. -/
def closing_conn : asio_connection_t :=
  { fd := 3, state := asio_conn_state_t.ASIO_CONN_CLOSING, poll_flags := 0, io_ctx := empty_ctx }

/-- A world in which descriptor 3 is open. -/
def world_fd3 : World :=
  { open_fds := [3], errno := 0, trace := [], destroyed := [], fault := false }

/-- The calls of one run of `asio_socket_free` on descriptor `fd`. -/
def teardown_calls (fd : Int) : List Call :=
  [Call.close fd, Call.buf_destroy_recv, Call.buf_destroy_send]

/-- A Connected record on descriptor 3 whose send buffer holds two unread
bytes and whose receive buffer is empty. -/
def connected_conn : asio_connection_t :=
  { fd := 3, state := asio_conn_state_t.ASIO_CONN_CONNECTED, poll_flags := 0,
    io_ctx := { recv_buf := empty_buf,
                send_buf := { base := [5, 6, 0, 0], read_pos := 0, write_pos := 2 } } }

/-- A `select` that fails with `EBADF`. -/
def select_failing : SelectOutcome :=
  { n := -1, err := EBADF, in_readset := false, in_writeset := false, in_errset := false }

/-- A `select` that reports the descriptor readable, and nothing else. -/
def select_readable : SelectOutcome :=
  { n := 1, err := 0, in_readset := true, in_writeset := false, in_errset := false }

/-- A `select` that reports the descriptor writable, and nothing else. -/
def select_writable : SelectOutcome :=
  { n := 1, err := 0, in_readset := false, in_writeset := true, in_errset := false }

/-- A world in which descriptor 3 is open and an earlier non-blocking call
left `errno` at `EWOULDBLOCK`. -/
def world_stale_errno : World :=
  { open_fds := [3], errno := EWOULDBLOCK, trace := [], destroyed := [], fault := false }

/-- A Connected record whose receive buffer has its write cursor at the end
of the region and one consumed byte in front of its one unread byte. -/
def full_recv_conn : asio_connection_t :=
  { fd := 3, state := asio_conn_state_t.ASIO_CONN_CONNECTED, poll_flags := 0,
    io_ctx := { recv_buf := { base := [7, 8], read_pos := 1, write_pos := 2 },
                send_buf := empty_buf } }

/-- The poller reports neither SendReady nor RecvReady on this `select`
outcome, whatever record and world it runs on. -/
def poller_reports_no_io (sel : SelectOutcome) : Prop :=
  ∀ (w : World) (conn : asio_connection_t),
    (asio_socket_poll sel w conn).2.1.poll_flags &&& POLL_FLAG_SEND = 0 ∧
    (asio_socket_poll sel w conn).2.1.poll_flags &&& POLL_FLAG_RECV = 0

/-- The receive buffer is out of room behind the write cursor while
compaction would free some: the condition of line 213. -/
def needs_purge (buf : buffer_t) : Prop :=
  buf_free_capacity buf < 1 ∧ buf_free_capacity_after_purge buf > 0

instance (buf : buffer_t) : Decidable (needs_purge buf) := by
  unfold needs_purge; exact inferInstance

/-- A tick environment in which `select` reports the descriptor writable and
`send` takes one byte. -/
def sending_env : TickEnv :=
  { gai_err := 0, si := [], sel := select_writable, snd := SendOutcome.sent 1,
    rcv := RecvOutcome.fail EWOULDBLOCK }

/-! ## Poller -/

theorem asio_socket_poll_flags (sel : SelectOutcome) (w : World) (conn : asio_connection_t) :
    (asio_socket_poll sel w conn).2.1.poll_flags = flags_of_select sel := by
  unfold asio_socket_poll sys_select flags_of_select
  by_cases h1 : sel.n < 0
  · have h2 : ¬ (0 < sel.n) := by omega
    by_cases h3 : sel.err = EINTR <;> simp [h1, h2, h3]
  · by_cases h2 : sel.n = 0
    · simp [h2]
    · have h3 : 0 < sel.n := by omega
      cases hw : sel.in_writeset <;> cases hr : sel.in_readset <;>
        cases he : sel.in_errset <;> simp [h1, h2, h3]

theorem asio_socket_poll_fd_state (sel : SelectOutcome) (w : World) (conn : asio_connection_t) :
    (asio_socket_poll sel w conn).2.1.fd = conn.fd ∧
    (asio_socket_poll sel w conn).2.1.state = conn.state ∧
    (asio_socket_poll sel w conn).2.1.io_ctx = conn.io_ctx := by
  unfold asio_socket_poll sys_select
  by_cases h1 : sel.n < 0
  · by_cases h3 : sel.err = EINTR <;> simp [h1, h3]
  · by_cases h2 : sel.n = 0
    · simp [h2]
    · cases hw : sel.in_writeset <;> cases hr : sel.in_readset <;>
        cases he : sel.in_errset <;> simp [h1, h2]

/-- C8: after `asio_socket_poll` the flags are a function of this call's
`select` outcome alone: empty when `select` failed or reported nothing ready,
otherwise SEND, RECV and ERR are set exactly when the descriptor is in the
returned write, read and error set; so two calls that start from different
records and worlds but see the same outcome end with equal flags. -/
theorem asio_socket_poll_recomputes_flags (sel : SelectOutcome) (w w2 : World)
    (conn conn2 : asio_connection_t) :
    ((asio_socket_poll sel w conn).2.1.poll_flags =
        if sel.n < 0 ∨ sel.n = 0 then 0
        else (((if sel.in_writeset then POLL_FLAG_SEND else 0) |||
               (if sel.in_readset then POLL_FLAG_RECV else 0)) |||
               (if sel.in_errset then POLL_FLAG_ERR else 0))) ∧
    ((asio_socket_poll sel w conn).2.1.poll_flags &&& POLL_FLAG_SEND ≠ 0 ↔
        0 < sel.n ∧ sel.in_writeset = true) ∧
    ((asio_socket_poll sel w conn).2.1.poll_flags &&& POLL_FLAG_RECV ≠ 0 ↔
        0 < sel.n ∧ sel.in_readset = true) ∧
    ((asio_socket_poll sel w conn).2.1.poll_flags &&& POLL_FLAG_ERR ≠ 0 ↔
        0 < sel.n ∧ sel.in_errset = true) ∧
    (asio_socket_poll sel w2 conn2).2.1.poll_flags =
      (asio_socket_poll sel w conn).2.1.poll_flags := by
  simp only [asio_socket_poll_flags]
  unfold flags_of_select
  by_cases h : 0 < sel.n
  · have h1 : ¬ (sel.n < 0 ∨ sel.n = 0) := by omega
    cases hw : sel.in_writeset <;> cases hr : sel.in_readset <;>
      cases he : sel.in_errset <;> simp [h, h1] <;> decide
  · have h1 : sel.n < 0 ∨ sel.n = 0 := by omega
    simp [h, h1]

/-! ## Connector -/

theorem connect_loop_failed_attempt (p : addrinfo) (rest : List addrinfo) (fd : Int)
    (w : World) (h : ¬ attempt_succeeds p) :
    connect_loop (p :: rest) fd w =
      connect_loop rest p.socket_ret (world_after_failed_attempt p w) := by
  unfold attempt_succeeds at h
  unfold world_after_failed_attempt
  rw [connect_loop]
  simp only [INVALID_SOCKET] at h ⊢
  by_cases h1 : p.socket_ret = -1
  · simp [h1, sys_socket, INVALID_SOCKET]
  · by_cases h2 : p.ai_protocol = IPPROTO_TCP
    · by_cases h3 : p.setsockopt_ret = 0
      · have h4 : p.connect_ret = -1 := by
          by_contra hc; exact h ⟨h1, fun _ => h3, hc⟩
        simp [h1, h2, h3, h4, sys_socket, sys_setsockopt, sys_connect, INVALID_SOCKET]
      · simp [h1, h2, h3, sys_socket, sys_setsockopt, INVALID_SOCKET]
    · have h4 : p.connect_ret = -1 := by
        by_contra hc; exact h ⟨h1, fun hh => absurd hh h2, hc⟩
      simp [h1, h2, h4, sys_socket, sys_connect, INVALID_SOCKET]

theorem connect_loop_successful_attempt (p : addrinfo) (rest : List addrinfo) (fd : Int)
    (w : World) (h : attempt_succeeds p) :
    connect_loop (p :: rest) fd w = connect_loop [p] fd w ∧
    (connect_loop (p :: rest) fd w).1 = true ∧
    (connect_loop (p :: rest) fd w).2.1 = p.socket_ret ∧
    (connect_loop (p :: rest) fd w).2.2.open_fds = p.socket_ret :: w.open_fds := by
  obtain ⟨h1, h2, h3⟩ := h
  simp only [INVALID_SOCKET] at h1 h3
  by_cases ht : p.ai_protocol = IPPROTO_TCP
  · have h4 := h2 ht
    by_cases h5 : p.connect_ret = 0 <;>
      simp [connect_loop, h1, ht, h4, h3, h5, sys_socket, sys_setsockopt, sys_connect,
        World.log, INVALID_SOCKET]
  · by_cases h5 : p.connect_ret = 0 <;>
      simp [connect_loop, h1, ht, h3, h5, sys_socket, sys_connect, World.log, INVALID_SOCKET]

theorem world_after_failed_attempt_open_fds (p : addrinfo) (w : World) :
    (world_after_failed_attempt p w).open_fds =
      if nodelay_failed p = true then p.socket_ret :: w.open_fds else w.open_fds := by
  unfold world_after_failed_attempt nodelay_failed
  simp only [INVALID_SOCKET]
  by_cases h1 : p.socket_ret = -1
  · simp [h1, sys_socket, World.log, INVALID_SOCKET]
  · by_cases h2 : p.ai_protocol = IPPROTO_TCP
    · by_cases h3 : p.setsockopt_ret = 0
      · by_cases h5 : p.connect_ret = 0 <;>
          simp [h1, h2, h3, h5, sys_socket, sys_setsockopt, sys_connect, sys_close, World.log,
            INVALID_SOCKET]
      · simp [h1, h2, h3, sys_socket, sys_setsockopt, World.log, INVALID_SOCKET]
    · by_cases h5 : p.connect_ret = 0 <;>
        simp [h1, h2, h5, sys_socket, sys_connect, sys_close, World.log, INVALID_SOCKET]

theorem connect_loop_skips_failed (pre rest : List addrinfo) (fd : Int) (w : World)
    (hpre : ∀ q ∈ pre, ¬ attempt_succeeds q) :
    connect_loop (pre ++ rest) fd w =
      connect_loop rest (fd_after_failed_attempts pre fd) (world_after_failed_attempts pre w) := by
  induction pre generalizing fd w with
  | nil => rfl
  | cons q qs ih =>
    have hq : ¬ attempt_succeeds q := hpre q (List.mem_cons_self q qs)
    have hqs : ∀ x ∈ qs, ¬ attempt_succeeds x := fun x hx => hpre x (List.mem_cons_of_mem q hx)
    rw [List.cons_append, connect_loop_failed_attempt q (qs ++ rest) fd w hq, ih _ _ hqs]
    rfl

theorem world_after_failed_attempt_trace (p : addrinfo) (w : World) :
    ∃ t, (world_after_failed_attempt p w).trace = w.trace ++ t ∧
      (∀ c ∈ t, connector_step_call c = true) ∧
      t.countP is_socket_call = 1 ∧
      (connect_failed p →
        ∃ t0, t = t0 ++ [Call.connect p.socket_ret, Call.close p.socket_ret]) := by
  unfold world_after_failed_attempt connect_failed
  simp only [INVALID_SOCKET]
  by_cases h1 : p.socket_ret = -1
  · refine ⟨[Call.socket p.socket_ret], ?_, ?_, ?_, ?_⟩
    · simp [h1, sys_socket, World.log, INVALID_SOCKET]
    · simp [connector_step_call]
    · simp [is_socket_call]
    · intro h; exact absurd h1 h.1
  · by_cases h2 : p.ai_protocol = IPPROTO_TCP
    · by_cases h3 : p.setsockopt_ret = 0
      · refine ⟨[Call.socket p.socket_ret, Call.setsockopt p.socket_ret,
          Call.connect p.socket_ret, Call.close p.socket_ret], ?_, ?_, ?_, ?_⟩
        · by_cases h5 : p.connect_ret = 0 <;>
            simp [h1, h2, h3, h5, sys_socket, sys_setsockopt, sys_connect, sys_close,
              World.log, INVALID_SOCKET]
        · simp [connector_step_call]
        · simp [is_socket_call, List.countP_cons]
        · intro _
          exact ⟨[Call.socket p.socket_ret, Call.setsockopt p.socket_ret], rfl⟩
      · refine ⟨[Call.socket p.socket_ret, Call.setsockopt p.socket_ret], ?_, ?_, ?_, ?_⟩
        · simp [h1, h2, h3, sys_socket, sys_setsockopt, World.log, INVALID_SOCKET]
        · simp [connector_step_call]
        · simp [is_socket_call, List.countP_cons]
        · intro h; exact absurd (h.2.1 h2) h3
    · refine ⟨[Call.socket p.socket_ret, Call.connect p.socket_ret,
        Call.close p.socket_ret], ?_, ?_, ?_, ?_⟩
      · by_cases h5 : p.connect_ret = 0 <;>
          simp [h1, h2, h5, sys_socket, sys_connect, sys_close, World.log, INVALID_SOCKET]
      · simp [connector_step_call]
      · simp [is_socket_call, List.countP_cons]
      · intro _
        exact ⟨[Call.socket p.socket_ret], rfl⟩

theorem world_after_failed_attempts_open_fds (pre : List addrinfo) (w : World) :
    (world_after_failed_attempts pre w).open_fds =
      ((pre.filter fun q => nodelay_failed q).map fun q => q.socket_ret).reverse ++
        w.open_fds := by
  induction pre generalizing w with
  | nil => simp [world_after_failed_attempts]
  | cons q qs ih =>
    rw [world_after_failed_attempts, ih, world_after_failed_attempt_open_fds]
    by_cases hq : nodelay_failed q = true <;> simp [hq, List.filter_cons]

theorem world_after_failed_attempts_trace (pre : List addrinfo) (w : World) :
    ∃ t, (world_after_failed_attempts pre w).trace = w.trace ++ t ∧
      (∀ c ∈ t, connector_step_call c = true) ∧
      t.countP is_socket_call = pre.length ∧
      (∀ q ∈ pre, connect_failed q →
        [Call.connect q.socket_ret, Call.close q.socket_ret] <:+: t) := by
  induction pre generalizing w with
  | nil => exact ⟨[], by simp [world_after_failed_attempts]⟩
  | cons q qs ih =>
    obtain ⟨t1, e1, a1, c1, f1⟩ := world_after_failed_attempt_trace q w
    obtain ⟨t2, e2, a2, c2, f2⟩ := ih (world_after_failed_attempt q w)
    refine ⟨t1 ++ t2, ?_, ?_, ?_, ?_⟩
    · rw [world_after_failed_attempts, e2, e1, List.append_assoc]
    · intro c hc
      rcases List.mem_append.mp hc with h | h
      · exact a1 c h
      · exact a2 c h
    · rw [List.countP_append, c1, c2, List.length_cons, Nat.add_comm]
    · intro x hx hfail
      rcases List.mem_cons.mp hx with h | h
      · subst h
        obtain ⟨t0, e0⟩ := f1 hfail
        exact ⟨t0, t2, by rw [e0]⟩
      · obtain ⟨a, b, e⟩ := f2 x h hfail
        exact ⟨t1 ++ a, b, by rw [← e]; simp [List.append_assoc]⟩

theorem connect_loop_successful_trace (p : addrinfo) (fd : Int) (w : World)
    (h : attempt_succeeds p) :
    ∃ t, (connect_loop [p] fd w).2.2.trace = w.trace ++ t ∧
      (∀ c ∈ t, connector_step_call c = true) ∧ t.countP is_socket_call = 1 := by
  obtain ⟨h1, h2, h3⟩ := h
  simp only [INVALID_SOCKET] at h1 h3
  by_cases ht : p.ai_protocol = IPPROTO_TCP
  · have h4 := h2 ht
    refine ⟨[Call.socket p.socket_ret, Call.setsockopt p.socket_ret,
      Call.connect p.socket_ret], ?_, ?_, ?_⟩
    · by_cases h5 : p.connect_ret = 0 <;>
        simp [connect_loop, h1, ht, h4, h3, h5, sys_socket, sys_setsockopt, sys_connect,
          World.log, INVALID_SOCKET]
    · simp [connector_step_call]
    · simp [is_socket_call, List.countP_cons]
  · refine ⟨[Call.socket p.socket_ret, Call.connect p.socket_ret], ?_, ?_, ?_⟩
    · by_cases h5 : p.connect_ret = 0 <;>
        simp [connect_loop, h1, ht, h3, h5, sys_socket, sys_connect, World.log, INVALID_SOCKET]
    · simp [connector_step_call]
    · simp [is_socket_call, List.countP_cons]

theorem connect_loop_trace (si : List addrinfo) (fd : Int) (w : World) :
    ∃ t, (connect_loop si fd w).2.2.trace = w.trace ++ t ∧
      ∀ c ∈ t, connector_step_call c = true := by
  induction si generalizing fd w with
  | nil => exact ⟨[], by simp [connect_loop]⟩
  | cons q qs ih =>
    by_cases hq : attempt_succeeds q
    · obtain ⟨t, e, a, _⟩ := connect_loop_successful_trace q fd w hq
      exact ⟨t, by rw [(connect_loop_successful_attempt q qs fd w hq).1, e], a⟩
    · obtain ⟨t1, e1, a1, _, _⟩ := world_after_failed_attempt_trace q w
      obtain ⟨t2, e2, a2⟩ := ih q.socket_ret (world_after_failed_attempt q w)
      refine ⟨t1 ++ t2, ?_, ?_⟩
      · rw [connect_loop_failed_attempt q qs fd w hq, e2, e1, List.append_assoc]
      · intro c hc
        rcases List.mem_append.mp hc with h | h
        · exact a1 c h
        · exact a2 c h

theorem connect_loop_all_failed (si : List addrinfo) (fd : Int) (w : World)
    (h : ∀ q ∈ si, ¬ attempt_succeeds q) :
    (connect_loop si fd w).1 = false := by
  have := connect_loop_skips_failed si [] fd w h
  rw [List.append_nil] at this
  rw [this]; rfl

theorem asio_socket_connect_all_failed (si : List addrinfo) (verbose : Bool) (w : World)
    (h : ∀ q ∈ si, ¬ attempt_succeeds q) :
    (asio_socket_connect 0 si verbose w).1 = INVALID_SOCKET := by
  unfold asio_socket_connect
  dsimp only
  rw [connect_loop_all_failed si INVALID_SOCKET _ h]
  simp

theorem World.log_trace (w : World) (c : Call) : (w.log c).trace = w.trace ++ [c] := rfl

theorem World.log_open_fds (w : World) (c : Call) : (w.log c).open_fds = w.open_fds := rfl

theorem World.log_errno (w : World) (c : Call) : (w.log c).errno = w.errno := rfl

attribute [simp] World.log_trace World.log_open_fds World.log_errno

theorem asio_socket_connect_trace (gai_err : Int) (si : List addrinfo) (verbose : Bool)
    (w : World) :
    ∃ t, (asio_socket_connect gai_err si verbose w).2.trace = w.trace ++ Call.getaddrinfo :: t ∧
      ∀ c ∈ t, connector_step_call c = true := by
  obtain ⟨t, e, a⟩ := connect_loop_trace si INVALID_SOCKET (w.log Call.getaddrinfo)
  unfold asio_socket_connect
  by_cases hg : gai_err = 0
  · by_cases hb : (connect_loop si INVALID_SOCKET (w.log Call.getaddrinfo)).1 = false
    · refine ⟨t ++ [Call.freeaddrinfo], ?_, ?_⟩
      · simp [hg, hb, e]
      · intro c hc
        rcases List.mem_append.mp hc with h | h
        · exact a c h
        · simp at h; subst h; rfl
    · refine ⟨t ++ [Call.freeaddrinfo,
        Call.fcntl (connect_loop si INVALID_SOCKET (w.log Call.getaddrinfo)).2.1], ?_, ?_⟩
      · simp [hg, hb, e]
      · intro c hc
        rcases List.mem_append.mp hc with h | h
        · exact a c h
        · simp at h; rcases h with h | h <;> subst h <;> rfl
  · exact ⟨[], by simp [hg]⟩

/-- C1 (evaluation at the failing input): one TCP candidate whose `socket`
returns descriptor 3 and whose `setsockopt(TCP_NODELAY)` fails.  No candidate
ends in a successful connect and the connector returns `INVALID_SOCKET`, yet
descriptor 3 is still open afterwards although no descriptor was open before:
line 97 leaves the iteration through `continue` without the `close(fd)` that
the failing-connect path has at line 106. -/
theorem asio_socket_connect_nodelay_failure_leaks :
    (∀ q ∈ [nodelay_failing_candidate], ¬ attempt_succeeds q) ∧
    (asio_socket_connect 0 [nodelay_failing_candidate] true empty_world).1 = INVALID_SOCKET ∧
    empty_world.open_fds = [] ∧
    (asio_socket_connect 0 [nodelay_failing_candidate] true empty_world).2.open_fds = [3] ∧
    (asio_socket_connect 0 [nodelay_failing_candidate] true empty_world).2.trace =
      [Call.getaddrinfo, Call.socket 3, Call.setsockopt 3, Call.freeaddrinfo] := by
  decide

/-- C2: when the candidate list is `pre ++ p :: post`, no candidate of `pre`
ends in a successful connect and `p` does, then `asio_socket_connect` returns
the descriptor `socket` gave for `p`; nothing behind `p` is attempted (the
whole result, world and trace included, is the one for the list cut after `p`,
and exactly `pre.length + 1` calls of `socket` were made); every earlier
candidate whose `connect` failed had `close` called on its descriptor right
after that `connect`; and the descriptors open at the end are the returned
one, those of earlier candidates stopped by a failing `setsockopt`, and those
open before. -/
theorem asio_socket_connect_first_success (pre post : List addrinfo) (p : addrinfo)
    (verbose : Bool) (w : World)
    (hpre : ∀ q ∈ pre, ¬ attempt_succeeds q) (hp : attempt_succeeds p) :
    (asio_socket_connect 0 (pre ++ p :: post) verbose w).1 = p.socket_ret ∧
    asio_socket_connect 0 (pre ++ p :: post) verbose w =
      asio_socket_connect 0 (pre ++ [p]) verbose w ∧
    (∃ t, (asio_socket_connect 0 (pre ++ p :: post) verbose w).2.trace = w.trace ++ t ∧
      t.countP is_socket_call = pre.length + 1) ∧
    (∀ q ∈ pre, connect_failed q →
      [Call.connect q.socket_ret, Call.close q.socket_ret] <:+:
        (asio_socket_connect 0 (pre ++ p :: post) verbose w).2.trace) ∧
    (asio_socket_connect 0 (pre ++ p :: post) verbose w).2.open_fds =
      p.socket_ret ::
        (((pre.filter fun q => nodelay_failed q).map fun q => q.socket_ret).reverse ++
          w.open_fds) := by
  have e1 := connect_loop_skips_failed pre (p :: post) INVALID_SOCKET
    (w.log Call.getaddrinfo) hpre
  have e2 := connect_loop_skips_failed pre [p] INVALID_SOCKET (w.log Call.getaddrinfo) hpre
  obtain ⟨s1, s2, s3, s4⟩ := connect_loop_successful_attempt p post
    (fd_after_failed_attempts pre INVALID_SOCKET)
    (world_after_failed_attempts pre (w.log Call.getaddrinfo)) hp
  obtain ⟨t1, g1, _, g3, g4⟩ := world_after_failed_attempts_trace pre (w.log Call.getaddrinfo)
  obtain ⟨t2, k1, _, k3⟩ := connect_loop_successful_trace p
    (fd_after_failed_attempts pre INVALID_SOCKET)
    (world_after_failed_attempts pre (w.log Call.getaddrinfo)) hp
  have eq : connect_loop (pre ++ p :: post) INVALID_SOCKET (w.log Call.getaddrinfo) =
      connect_loop (pre ++ [p]) INVALID_SOCKET (w.log Call.getaddrinfo) := by
    rw [e1, e2, s1]
  have htr : (asio_socket_connect 0 (pre ++ p :: post) verbose w).2.trace =
      w.trace ++ (Call.getaddrinfo :: t1 ++ t2 ++
        [Call.freeaddrinfo, Call.fcntl p.socket_ret]) := by
    unfold asio_socket_connect
    dsimp only
    rw [e1, s1]
    rw [s1] at s2 s3
    simp [s2, s3, k1, g1]
  refine ⟨?_, ?_, ⟨_, htr, ?_⟩, ?_, ?_⟩
  · unfold asio_socket_connect
    dsimp only
    rw [e1]
    simp [s2, s3]
  · unfold asio_socket_connect
    dsimp only
    rw [eq]
  · simp [List.countP_append, List.countP_cons, is_socket_call, g3, k3]
  · intro q hq hf
    obtain ⟨a, b, e⟩ := g4 q hq hf
    rw [htr]
    refine ⟨w.trace ++ Call.getaddrinfo :: a,
      b ++ t2 ++ [Call.freeaddrinfo, Call.fcntl p.socket_ret], ?_⟩
    rw [← e]; simp [List.append_assoc]
  · unfold asio_socket_connect
    dsimp only
    rw [e1]
    simp [s2, s4, world_after_failed_attempts_open_fds]

/-- C2 (witness): two candidates, the first is refused at `connect`, the
second succeeds; a third one follows. -/
theorem asio_socket_connect_first_success_witness :
    (∀ q ∈ [refused_candidate], ¬ attempt_succeeds q) ∧ attempt_succeeds good_candidate ∧
    (asio_socket_connect 0 ([refused_candidate] ++ good_candidate :: [refused_candidate])
      true empty_world).1 = good_candidate.socket_ret :=
  ⟨by decide, by decide,
   (asio_socket_connect_first_success [refused_candidate] [refused_candidate] good_candidate
    true empty_world (by decide) (by decide)).1⟩

/-! ## Pump: what it never touches -/

theorem asio_socket_rw_recv_frame (rcv : RecvOutcome) (w : World) (conn : asio_connection_t) :
    (asio_socket_rw_recv rcv w conn).2.1.fd = conn.fd ∧
    (asio_socket_rw_recv rcv w conn).2.1.state = conn.state ∧
    (asio_socket_rw_recv rcv w conn).2.1.poll_flags = conn.poll_flags ∧
    (asio_socket_rw_recv rcv w conn).2.1.io_ctx.send_buf = conn.io_ctx.send_buf := by
  unfold asio_socket_rw_recv
  dsimp only
  split_ifs <;> simp

theorem asio_socket_rw_frame (sel : SelectOutcome) (snd : SendOutcome) (rcv : RecvOutcome)
    (w : World) (conn : asio_connection_t) :
    (asio_socket_rw sel snd rcv w conn).2.1.fd = conn.fd ∧
    (asio_socket_rw sel snd rcv w conn).2.1.state = conn.state := by
  have hp := asio_socket_poll_fd_state sel w conn
  unfold asio_socket_rw
  dsimp only
  split_ifs
  · simp [(asio_socket_rw_recv_frame _ _ _).1, (asio_socket_rw_recv_frame _ _ _).2.1, hp]
  · simp [hp]
  · simp [(asio_socket_rw_recv_frame _ _ _).1, (asio_socket_rw_recv_frame _ _ _).2.1, hp]
  · simp [(asio_socket_rw_recv_frame _ _ _).1, (asio_socket_rw_recv_frame _ _ _).2.1, hp]

/-! ## State machine -/

/-- C7: a tick on a record in state New runs the connector once and nothing
else: the world after the tick is the world after one `asio_socket_connect`,
whose trace is the old one, one `getaddrinfo`, and then only connector calls
(no `select`, `send`, `recv`, no `buf_destroy`).  If the connector returned a
descriptor `fd >= 0` the tick returns `ASIO_OK` and the record differs from
the old one in `fd`, now that descriptor, and `state`, now Connected; if it
returned `INVALID_SOCKET` the tick returns `ASIO_ERR` and the record differs
only in `state`, now Closing. -/
theorem asio_socket_event_new_tick (env : TickEnv) (w : World) (conn : asio_connection_t)
    (h : conn.state = asio_conn_state_t.ASIO_CONN_NEW) :
    (asio_socket_event env w conn).2.2 = (asio_socket_connect env.gai_err env.si true w).2 ∧
    (∃ t, (asio_socket_event env w conn).2.2.trace = w.trace ++ Call.getaddrinfo :: t ∧
      ∀ c ∈ t, connector_step_call c = true) ∧
    (0 ≤ (asio_socket_connect env.gai_err env.si true w).1 →
      (asio_socket_event env w conn).1 = asio_result_t.ASIO_OK ∧
      (asio_socket_event env w conn).2.1 =
        { conn with fd := (asio_socket_connect env.gai_err env.si true w).1,
                    state := asio_conn_state_t.ASIO_CONN_CONNECTED }) ∧
    ((asio_socket_connect env.gai_err env.si true w).1 = INVALID_SOCKET →
      (asio_socket_event env w conn).1 = asio_result_t.ASIO_ERR ∧
      (asio_socket_event env w conn).2.1 =
        { conn with state := asio_conn_state_t.ASIO_CONN_CLOSING }) := by
  have hw : (asio_socket_event env w conn).2.2 =
      (asio_socket_connect env.gai_err env.si true w).2 := by
    unfold asio_socket_event
    rw [h]
    dsimp only
    split_ifs <;> rfl
  refine ⟨hw, ?_, ?_, ?_⟩
  · rw [hw]
    exact asio_socket_connect_trace env.gai_err env.si true w
  · intro hfd
    have hn : ¬ (asio_socket_connect env.gai_err env.si true w).1 < 0 := by omega
    unfold asio_socket_event
    rw [h]
    simp [hn]
  · intro hfd
    have hn : (asio_socket_connect env.gai_err env.si true w).1 < 0 := by
      rw [hfd]; decide
    unfold asio_socket_event
    rw [h]
    simp [hn]

/-- C7 (witness): a New record whose resolver yields one good candidate. -/
theorem asio_socket_event_new_tick_witness :
    new_conn.state = asio_conn_state_t.ASIO_CONN_NEW ∧
    (asio_socket_event connecting_env empty_world new_conn).2.2 =
      (asio_socket_connect connecting_env.gai_err connecting_env.si true empty_world).2 :=
  ⟨rfl, (asio_socket_event_new_tick connecting_env empty_world new_conn rfl).1⟩

theorem sys_close_frame (fd : Int) (w : World) :
    (sys_close fd w).destroyed = w.destroyed ∧
    (sys_close fd w).fault = w.fault ∧
    (fd ∈ w.open_fds → (sys_close fd w).open_fds = w.open_fds.erase fd) := by
  unfold sys_close
  dsimp only
  split_ifs with hm
  · exact ⟨rfl, rfl, fun _ => rfl⟩
  · exact ⟨rfl, rfl, fun hin => absurd hin hm⟩

theorem buf_destroy_fresh (slot : buf_slot) (w : World) (h : slot ∉ w.destroyed) :
    (buf_destroy slot w).destroyed = slot :: w.destroyed ∧
    (buf_destroy slot w).fault = w.fault ∧
    (buf_destroy slot w).open_fds = w.open_fds := by
  have hl : slot ∉ (w.log (buf_destroy_call slot)).destroyed := h
  unfold buf_destroy
  dsimp only
  rw [if_neg hl]
  exact ⟨rfl, rfl, rfl⟩

theorem asio_socket_free_trace (w : World) (conn : asio_connection_t) :
    (asio_socket_free w conn).trace = w.trace ++ teardown_calls conn.fd := by
  unfold asio_socket_free buf_destroy sys_close teardown_calls
  dsimp only
  split_ifs <;> simp [buf_destroy_call]

/-- C6 (counterexample): two successive ticks on a Closing record that holds
descriptor 3 and two live buffers.  The first tick tears down once and
leaves the state Closing; the second tick is not a no-op: it runs
`asio_socket_free` again, so the trace shows `close(3)` and both
`buf_destroy` calls two times each, on buffers the first tick had destroyed
(a double free, the fault of the model). -/
theorem asio_socket_event_closing_twice_frees_twice :
    closing_conn.state = asio_conn_state_t.ASIO_CONN_CLOSING ∧
    world_fd3.destroyed = [] ∧
    (run_ticks [quiet_env] world_fd3 closing_conn).2.2.fault = false ∧
    (run_ticks [quiet_env] world_fd3 closing_conn).2.1.state =
      asio_conn_state_t.ASIO_CONN_CLOSING ∧
    (run_ticks [quiet_env, quiet_env] world_fd3 closing_conn).2.2.trace =
      [Call.close 3, Call.buf_destroy_recv, Call.buf_destroy_send,
       Call.close 3, Call.buf_destroy_recv, Call.buf_destroy_send] ∧
    (run_ticks [quiet_env, quiet_env] world_fd3 closing_conn).2.2.trace.count
      Call.buf_destroy_recv ≠ 1 ∧
    (run_ticks [quiet_env, quiet_env] world_fd3 closing_conn).2.2.fault = true := by
  decide

/-- C6 (amended): on a record in state Closing whose two buffers are alive,
the first invocation of `asio_socket_event` runs `asio_socket_free` exactly
once: the calls it adds to the trace are `close` on the descriptor, one
`buf_destroy` of the receive buffer and one of the send buffer, in this
order; an open descriptor is released, both buffers are destroyed, no
undefined behaviour is executed, the tick returns `ASIO_OK`, and the record
is left as it was, state Closing included.  Nothing is stated about a further
invocation on that record. -/
theorem asio_socket_event_closing_first_tick (env : TickEnv) (w : World)
    (conn : asio_connection_t) (h : conn.state = asio_conn_state_t.ASIO_CONN_CLOSING)
    (hrecv : buf_slot.recv_buf ∉ w.destroyed) (hsend : buf_slot.send_buf ∉ w.destroyed) :
    (asio_socket_event env w conn).1 = asio_result_t.ASIO_OK ∧
    (asio_socket_event env w conn).2.1 = conn ∧
    (asio_socket_event env w conn).2.2.trace =
      w.trace ++ [Call.close conn.fd, Call.buf_destroy_recv, Call.buf_destroy_send] ∧
    (conn.fd ∈ w.open_fds →
      (asio_socket_event env w conn).2.2.open_fds = w.open_fds.erase conn.fd) ∧
    (asio_socket_event env w conn).2.2.destroyed =
      buf_slot.send_buf :: buf_slot.recv_buf :: w.destroyed ∧
    (asio_socket_event env w conn).2.2.fault = w.fault := by
  have he : asio_socket_event env w conn =
      (asio_result_t.ASIO_OK, conn, asio_socket_free w conn) := by
    unfold asio_socket_event
    rw [h]
  obtain ⟨c1, c2, c3⟩ := sys_close_frame conn.fd w
  obtain ⟨r1, r2, r3⟩ := buf_destroy_fresh buf_slot.recv_buf (sys_close conn.fd w)
    (by rw [c1]; exact hrecv)
  have hs2 : buf_slot.send_buf ∉
      (buf_destroy buf_slot.recv_buf (sys_close conn.fd w)).destroyed := by
    rw [r1, c1]
    intro hm
    rcases List.mem_cons.mp hm with e | e
    · exact absurd e (by decide)
    · exact hsend e
  obtain ⟨s1, s2, s3⟩ := buf_destroy_fresh buf_slot.send_buf
    (buf_destroy buf_slot.recv_buf (sys_close conn.fd w)) hs2
  rw [he]
  refine ⟨rfl, rfl, asio_socket_free_trace w conn, ?_, ?_, ?_⟩
  · intro hopen
    show (asio_socket_free w conn).open_fds = w.open_fds.erase conn.fd
    unfold asio_socket_free
    rw [s3, r3, c3 hopen]
  · show (asio_socket_free w conn).destroyed = _
    unfold asio_socket_free
    rw [s1, r1, c1]
  · show (asio_socket_free w conn).fault = _
    unfold asio_socket_free
    rw [s2, r2, c2]

/-- C6 (amended, witness): the first tick on the Closing record that holds
descriptor 3. -/
theorem asio_socket_event_closing_first_tick_witness :
    closing_conn.state = asio_conn_state_t.ASIO_CONN_CLOSING ∧
    buf_slot.recv_buf ∉ world_fd3.destroyed ∧ buf_slot.send_buf ∉ world_fd3.destroyed ∧
    (asio_socket_event quiet_env world_fd3 closing_conn).2.2.trace =
      world_fd3.trace ++ [Call.close closing_conn.fd, Call.buf_destroy_recv,
        Call.buf_destroy_send] :=
  ⟨rfl, by decide, by decide,
   (asio_socket_event_closing_first_tick quiet_env world_fd3 closing_conn rfl
    (by decide) (by decide)).2.2.1⟩

theorem asio_socket_event_keeps_validity (env : TickEnv) (w : World) (conn : asio_connection_t)
    (h : 0 ≤ conn.fd ↔ conn.state = asio_conn_state_t.ASIO_CONN_CONNECTED) :
    (0 ≤ (asio_socket_event env w conn).2.1.fd ↔
      (asio_socket_event env w conn).2.1.state = asio_conn_state_t.ASIO_CONN_CONNECTED) := by
  unfold asio_socket_event
  cases hs : conn.state with
  | ASIO_CONN_NEW =>
    rw [hs] at h
    dsimp only
    split_ifs with hfd
    · simpa using h
    · simp; omega
  | ASIO_CONN_CONNECTED =>
    dsimp only
    rw [(asio_socket_rw_frame _ _ _ _ _).1, (asio_socket_rw_frame _ _ _ _ _).2, hs]
    rw [hs] at h
    exact h
  | ASIO_CONN_CLOSING =>
    dsimp only
    rw [hs] at h
    rw [hs]
    exact h

theorem run_ticks_keeps_validity (envs : List TickEnv) (w : World) (conn : asio_connection_t)
    (h : 0 ≤ conn.fd ↔ conn.state = asio_conn_state_t.ASIO_CONN_CONNECTED) :
    (0 ≤ (run_ticks envs w conn).2.1.fd ↔
      (run_ticks envs w conn).2.1.state = asio_conn_state_t.ASIO_CONN_CONNECTED) := by
  induction envs generalizing w conn with
  | nil => exact h
  | cons e es ih =>
    rw [run_ticks]
    exact ih _ _ (asio_socket_event_keeps_validity e w conn h)

/-- C10: in every record reached from the one `asio_new_socket_connection`
builds (state New, `fd = -1`) by any finite sequence of `asio_socket_event`
ticks, under any outcomes of the external calls, the stored descriptor is
valid (`fd >= 0`) exactly when the state is Connected; and one more tick on
such a record in state Connected leaves it Connected, hence never back in
New. -/
theorem descriptor_valid_iff_connected (url_ok calloc_ok : Bool)
    (io_ctx : asio_socket_context_t) (registry_ret : Int) (conn0 : asio_connection_t)
    (envs : List TickEnv) (w : World)
    (h : asio_new_socket_connection url_ok calloc_ok io_ctx registry_ret = some conn0) :
    (conn0.state = asio_conn_state_t.ASIO_CONN_NEW ∧ conn0.fd = -1) ∧
    (0 ≤ (run_ticks envs w conn0).2.1.fd ↔
      (run_ticks envs w conn0).2.1.state = asio_conn_state_t.ASIO_CONN_CONNECTED) ∧
    ∀ (env : TickEnv) (w2 : World),
      (run_ticks envs w conn0).2.1.state = asio_conn_state_t.ASIO_CONN_CONNECTED →
      (asio_socket_event env w2 (run_ticks envs w conn0).2.1).2.1.state =
        asio_conn_state_t.ASIO_CONN_CONNECTED ∧
      (asio_socket_event env w2 (run_ticks envs w conn0).2.1).2.1.state ≠
        asio_conn_state_t.ASIO_CONN_NEW := by
  have h0 : conn0 = asio_connection_t.mk (-1) asio_conn_state_t.ASIO_CONN_NEW 0 io_ctx := by
    unfold asio_new_socket_connection at h
    dsimp only at h
    split_ifs at h
    exact (Option.some.inj h).symm
  refine ⟨by rw [h0]; exact ⟨rfl, rfl⟩, ?_, ?_⟩
  · apply run_ticks_keeps_validity
    rw [h0]
    simp
  · intro env w2 hc
    have e : (asio_socket_event env w2 (run_ticks envs w conn0).2.1).2.1.state =
        asio_conn_state_t.ASIO_CONN_CONNECTED := by
      unfold asio_socket_event
      rw [hc]
      dsimp only
      rw [(asio_socket_rw_frame _ _ _ _ _).2, hc]
    exact ⟨e, by rw [e]; decide⟩

/-- C10 (witness): the factory succeeds, the first tick connects, a second
tick pumps. -/
theorem descriptor_valid_iff_connected_witness :
    asio_new_socket_connection true true empty_ctx 0 = some new_conn ∧
    (0 ≤ (run_ticks [connecting_env, quiet_env] empty_world new_conn).2.1.fd ↔
      (run_ticks [connecting_env, quiet_env] empty_world new_conn).2.1.state =
        asio_conn_state_t.ASIO_CONN_CONNECTED) :=
  ⟨rfl, (descriptor_valid_iff_connected true true empty_ctx 0 new_conn
    [connecting_env, quiet_env] empty_world rfl).2.1⟩

/-! ## Pump -/

theorem asio_socket_rw_recv_never_err (rcv : RecvOutcome) (w : World)
    (conn : asio_connection_t) :
    (asio_socket_rw_recv rcv w conn).1 ≠ asio_result_t.ASIO_ERR := by
  unfold asio_socket_rw_recv
  dsimp only
  split_ifs <;> simp

theorem asio_socket_rw_never_err (sel : SelectOutcome) (snd : SendOutcome) (rcv : RecvOutcome)
    (w : World) (conn : asio_connection_t) :
    (asio_socket_rw sel snd rcv w conn).1 ≠ asio_result_t.ASIO_ERR := by
  unfold asio_socket_rw
  dsimp only
  split_ifs
  · exact asio_socket_rw_recv_never_err _ _ _
  · simp
  · exact asio_socket_rw_recv_never_err _ _ _
  · exact asio_socket_rw_recv_never_err _ _ _

/-- C3 (evaluation at the failing input): `select` fails with `EBADF`, not
`EINTR`.  `asio_socket_poll` returns `ASIO_ERR`, but `asio_socket_rw` drops
that result at line 187 and returns `ASIO_OK`. -/
theorem asio_socket_rw_drops_poll_error :
    select_failing.n < 0 ∧ select_failing.err ≠ EINTR ∧
    (asio_socket_poll select_failing world_fd3 connected_conn).1 = asio_result_t.ASIO_ERR ∧
    (asio_socket_rw select_failing (SendOutcome.sent 0) (RecvOutcome.fail EWOULDBLOCK)
      world_fd3 connected_conn).1 = asio_result_t.ASIO_OK := by
  decide

/-- C4 (evaluation at the failing input): `errno` still holds `EWOULDBLOCK`
from an earlier call, the poller reports RecvReady, `recv` is called for the
four free bytes and returns zero (the peer closed).  `recv` does not touch
`errno` on that return, the test of line 224 reads the old value, and
`asio_socket_rw` returns `ASIO_OK` where a close request is due. -/
theorem asio_socket_rw_misses_peer_close :
    world_stale_errno.errno = EWOULDBLOCK ∧
    (asio_socket_poll select_readable world_stale_errno connected_conn).2.1.poll_flags &&&
      POLL_FLAG_RECV ≠ 0 ∧
    (asio_socket_rw select_readable (SendOutcome.sent 0) (RecvOutcome.data [])
      world_stale_errno connected_conn).2.2.trace = [Call.select 3, Call.recv 3 4] ∧
    (asio_socket_rw select_readable (SendOutcome.sent 0) (RecvOutcome.data [])
      world_stale_errno connected_conn).1 = asio_result_t.ASIO_OK := by
  decide

/-- C5 (counterexample): nothing is ready, the receive buffer has no room
behind its write cursor and one reclaimable byte in front; the pump moves the
unread byte to the front, so base, read cursor and write cursor all change. -/
theorem asio_socket_rw_idle_compacts :
    (asio_socket_poll select_nothing world_fd3 full_recv_conn).2.1.poll_flags = 0 ∧
    buf_free_capacity full_recv_conn.io_ctx.recv_buf = 0 ∧
    full_recv_conn.io_ctx.recv_buf = { base := [7, 8], read_pos := 1, write_pos := 2 } ∧
    (asio_socket_rw select_nothing (SendOutcome.sent 0) (RecvOutcome.fail EWOULDBLOCK)
      world_fd3 full_recv_conn).2.1.io_ctx.recv_buf =
        { base := [8, 8], read_pos := 0, write_pos := 1 } := by
  decide

theorem buf_unread_bytes_length_le (buf : buffer_t) :
    (buf_unread_bytes buf).length ≤ buf.base.length := by
  unfold buf_unread_bytes
  simp only [List.length_take, List.length_drop]
  omega

theorem buf_move_remaining_bytes_to_front_capacity (buf : buffer_t) :
    (buf_move_remaining_bytes_to_front buf).base.length = buf.base.length := by
  have h := buf_unread_bytes_length_le buf
  unfold buf_move_remaining_bytes_to_front
  simp only [List.length_append, List.length_drop]
  omega

theorem buf_move_remaining_bytes_to_front_settled (buf : buffer_t) (h : needs_purge buf) :
    ¬ needs_purge (buf_move_remaining_bytes_to_front buf) := by
  have hc := buf_move_remaining_bytes_to_front_capacity buf
  unfold needs_purge buf_free_capacity buf_free_capacity_after_purge buf_data_unread at *
  have hw : (buf_move_remaining_bytes_to_front buf).write_pos = buf.write_pos - buf.read_pos := rfl
  rw [hc, hw]
  omega

theorem buf_move_remaining_bytes_to_front_unread (buf : buffer_t) (h : buf_wf buf) :
    buf_unread_bytes (buf_move_remaining_bytes_to_front buf) = buf_unread_bytes buf ∧
    buf_wf (buf_move_remaining_bytes_to_front buf) := by
  have hc := buf_move_remaining_bytes_to_front_capacity buf
  have hl : (buf_unread_bytes buf).length = buf.write_pos - buf.read_pos := by
    unfold buf_wf at h
    unfold buf_unread_bytes
    simp only [List.length_take, List.length_drop]
    omega
  constructor
  · have e : buf_unread_bytes (buf_move_remaining_bytes_to_front buf) =
        (buf_unread_bytes buf ++ buf.base.drop (buf_unread_bytes buf).length).take
          (buf.write_pos - buf.read_pos) := by
      simp [buf_unread_bytes, buf_move_remaining_bytes_to_front, buf_data_unread]
    rw [e, ← hl, List.take_left]
  · unfold buf_wf at *
    rw [hc]
    have hw : (buf_move_remaining_bytes_to_front buf).write_pos =
        buf.write_pos - buf.read_pos := rfl
    have hr : (buf_move_remaining_bytes_to_front buf).read_pos = 0 := rfl
    rw [hw, hr]
    omega

theorem asio_socket_rw_recv_idle (rcv : RecvOutcome) (w : World) (conn : asio_connection_t)
    (hr : conn.poll_flags &&& POLL_FLAG_RECV = 0) :
    (asio_socket_rw_recv rcv w conn).2.1.io_ctx.recv_buf =
      (if needs_purge conn.io_ctx.recv_buf then
        buf_move_remaining_bytes_to_front conn.io_ctx.recv_buf
      else conn.io_ctx.recv_buf) ∧
    (asio_socket_rw_recv rcv w conn).2.2 = w := by
  unfold asio_socket_rw_recv needs_purge
  dsimp only
  by_cases hp : buf_free_capacity conn.io_ctx.recv_buf < 1 ∧
      buf_free_capacity_after_purge conn.io_ctx.recv_buf > 0
  · rw [decide_eq_true hp, if_pos hp]
    simp [hr]
    split_ifs <;> simp
  · rw [decide_eq_false hp, if_neg hp]
    simp [hr]
    split_ifs <;> simp

theorem asio_socket_rw_idle (sel : SelectOutcome) (snd : SendOutcome) (rcv : RecvOutcome)
    (w : World) (conn : asio_connection_t) (h : poller_reports_no_io sel) :
    (asio_socket_rw sel snd rcv w conn).2.1.io_ctx.send_buf = conn.io_ctx.send_buf ∧
    (asio_socket_rw sel snd rcv w conn).2.1.io_ctx.recv_buf =
      (if needs_purge conn.io_ctx.recv_buf then
        buf_move_remaining_bytes_to_front conn.io_ctx.recv_buf
      else conn.io_ctx.recv_buf) ∧
    (asio_socket_rw sel snd rcv w conn).2.2.trace = w.trace ++ [Call.select conn.fd] := by
  obtain ⟨hs, hr⟩ := h w conn
  obtain ⟨_, _, hio⟩ := asio_socket_poll_fd_state sel w conn
  have hsel : (asio_socket_poll sel w conn).2.2.trace = w.trace ++ [Call.select conn.fd] := by
    unfold asio_socket_poll sys_select
    dsimp only
    split_ifs <;> simp
  unfold asio_socket_rw
  dsimp only
  simp only [hs, ne_eq, not_true_eq_false, false_and, if_false]
  obtain ⟨r1, r2⟩ := asio_socket_rw_recv_idle rcv (asio_socket_poll sel w conn).2.2
    (asio_socket_poll sel w conn).2.1 hr
  refine ⟨?_, ?_, ?_⟩
  · rw [(asio_socket_rw_recv_frame _ _ _).2.2.2, hio]
  · rw [r1, hio]
  · rw [r2, hsel]

theorem asio_socket_context_t_eq (a b : asio_socket_context_t)
    (hr : a.recv_buf = b.recv_buf) (hs : a.send_buf = b.send_buf) : a = b := by
  cases a; cases b; simp_all

theorem asio_socket_event_connected (env : TickEnv) (w : World) (conn : asio_connection_t)
    (hs : conn.state = asio_conn_state_t.ASIO_CONN_CONNECTED) :
    asio_socket_event env w conn = asio_socket_rw env.sel env.snd env.rcv w conn := by
  unfold asio_socket_event
  rw [hs]

theorem run_ticks_idle_settled (envs : List TickEnv) (w : World) (conn : asio_connection_t)
    (hs : conn.state = asio_conn_state_t.ASIO_CONN_CONNECTED)
    (hp : ¬ needs_purge conn.io_ctx.recv_buf)
    (h : ∀ e ∈ envs, poller_reports_no_io e.sel) :
    (run_ticks envs w conn).2.1.io_ctx = conn.io_ctx := by
  induction envs generalizing w conn with
  | nil => rfl
  | cons e es ih =>
    have he := h e (List.mem_cons_self e es)
    obtain ⟨r1, r2, _⟩ := asio_socket_rw_idle e.sel e.snd e.rcv w conn he
    rw [if_neg hp] at r2
    have hio : (asio_socket_rw e.sel e.snd e.rcv w conn).2.1.io_ctx = conn.io_ctx :=
      asio_socket_context_t_eq _ _ r2 r1
    rw [run_ticks, asio_socket_event_connected e w conn hs]
    dsimp only
    rw [ih _ _ (by rw [(asio_socket_rw_frame _ _ _ _ _).2, hs]) (by rw [hio]; exact hp)
      (fun x hx => h x (List.mem_cons_of_mem e hx)), hio]

/-- C5 (amended): on a Connected record, when the poller reports neither
SendReady nor RecvReady, `asio_socket_rw` makes no call but the `select`,
leaves the send buffer unchanged, and leaves the receive buffer unchanged
unless that buffer has no free capacity while compaction would free some; in
that case it compacts the receive buffer, which keeps its unread bytes and
their order when the cursors were in order.  Further such calls leave both
buffers as the first call left them. -/
theorem asio_socket_rw_idle_buffers (env : TickEnv) (envs : List TickEnv) (w : World)
    (conn : asio_connection_t)
    (hs : conn.state = asio_conn_state_t.ASIO_CONN_CONNECTED)
    (h : ∀ e ∈ env :: envs, poller_reports_no_io e.sel) :
    (asio_socket_rw env.sel env.snd env.rcv w conn).2.2.trace =
      w.trace ++ [Call.select conn.fd] ∧
    (asio_socket_rw env.sel env.snd env.rcv w conn).2.1.io_ctx.send_buf =
      conn.io_ctx.send_buf ∧
    (asio_socket_rw env.sel env.snd env.rcv w conn).2.1.io_ctx.recv_buf =
      (if needs_purge conn.io_ctx.recv_buf then
        buf_move_remaining_bytes_to_front conn.io_ctx.recv_buf
      else conn.io_ctx.recv_buf) ∧
    (buf_wf conn.io_ctx.recv_buf →
      buf_unread_bytes (asio_socket_rw env.sel env.snd env.rcv w conn).2.1.io_ctx.recv_buf =
        buf_unread_bytes conn.io_ctx.recv_buf) ∧
    (run_ticks (env :: envs) w conn).2.1.io_ctx =
      (asio_socket_rw env.sel env.snd env.rcv w conn).2.1.io_ctx := by
  have he := h env (List.mem_cons_self env envs)
  obtain ⟨r1, r2, r3⟩ := asio_socket_rw_idle env.sel env.snd env.rcv w conn he
  refine ⟨r3, r1, r2, ?_, ?_⟩
  · intro hwf
    rw [r2]
    split_ifs
    · exact (buf_move_remaining_bytes_to_front_unread _ hwf).1
    · rfl
  · rw [run_ticks, asio_socket_event_connected env w conn hs]
    dsimp only
    apply run_ticks_idle_settled
    · rw [(asio_socket_rw_frame _ _ _ _ _).2, hs]
    · rw [r2]
      split_ifs with hp
      · exact buf_move_remaining_bytes_to_front_settled _ hp
      · exact hp
    · exact fun x hx => h x (List.mem_cons_of_mem env hx)

/-- C5 (amended, witness): three idle ticks on the record whose receive
buffer is out of room with one reclaimable byte. -/
theorem asio_socket_rw_idle_buffers_witness :
    full_recv_conn.state = asio_conn_state_t.ASIO_CONN_CONNECTED ∧
    (run_ticks (quiet_env :: [quiet_env, quiet_env]) world_fd3 full_recv_conn).2.1.io_ctx =
      (asio_socket_rw quiet_env.sel quiet_env.snd quiet_env.rcv world_fd3
        full_recv_conn).2.1.io_ctx :=
  ⟨rfl, (asio_socket_rw_idle_buffers quiet_env [quiet_env, quiet_env] world_fd3 full_recv_conn
    rfl (by
      intro e he w conn
      have hq : e = quiet_env := by simpa using he
      rw [hq, asio_socket_poll_flags]
      decide)).2.2.2.2⟩

theorem asio_socket_rw_recv_keeps_trace (rcv : RecvOutcome) (w : World)
    (conn : asio_connection_t) (c : Call) (hc : c ∈ w.trace) :
    c ∈ (asio_socket_rw_recv rcv w conn).2.2.trace := by
  unfold asio_socket_rw_recv
  dsimp only
  cases rcv <;> (split_ifs <;> simp [sys_recv, hc])

/-- C9: when the poller reports SendReady, the send buffer holds `u > 0`
unread bytes and `send`, asked for `u` bytes, takes `n` of them with
`0 < n <= u`, then after `asio_socket_rw` the read cursor of the send buffer
has moved forward by exactly `n`, write cursor and stored bytes are as
before, the unread length is `u - n`, and the unread bytes are the old unread
bytes without their first `n`. -/
theorem asio_socket_rw_partial_send (sel : SelectOutcome) (rcv : RecvOutcome) (w : World)
    (conn : asio_connection_t) (n : Nat)
    (hready : (asio_socket_poll sel w conn).2.1.poll_flags &&& POLL_FLAG_SEND ≠ 0)
    (hn : 0 < n) (hle : n ≤ buf_data_unread conn.io_ctx.send_buf) :
    Call.send conn.fd (buf_data_unread conn.io_ctx.send_buf) ∈
      (asio_socket_rw sel (SendOutcome.sent n) rcv w conn).2.2.trace ∧
    (asio_socket_rw sel (SendOutcome.sent n) rcv w conn).2.1.io_ctx.send_buf.read_pos =
      conn.io_ctx.send_buf.read_pos + n ∧
    (asio_socket_rw sel (SendOutcome.sent n) rcv w conn).2.1.io_ctx.send_buf.write_pos =
      conn.io_ctx.send_buf.write_pos ∧
    (asio_socket_rw sel (SendOutcome.sent n) rcv w conn).2.1.io_ctx.send_buf.base =
      conn.io_ctx.send_buf.base ∧
    buf_data_unread (asio_socket_rw sel (SendOutcome.sent n) rcv w conn).2.1.io_ctx.send_buf =
      buf_data_unread conn.io_ctx.send_buf - n ∧
    buf_unread_bytes (asio_socket_rw sel (SendOutcome.sent n) rcv w conn).2.1.io_ctx.send_buf =
      (buf_unread_bytes conn.io_ctx.send_buf).drop n := by
  obtain ⟨hfd, _, hio⟩ := asio_socket_poll_fd_state sel w conn
  have hu : 0 < buf_data_unread conn.io_ctx.send_buf := by omega
  have hmin : min n (buf_data_unread conn.io_ctx.send_buf) = n := Nat.min_eq_left hle
  have hsb : (asio_socket_rw sel (SendOutcome.sent n) rcv w conn).2.1.io_ctx.send_buf =
      buf_drain conn.io_ctx.send_buf n := by
    unfold asio_socket_rw
    dsimp only
    rw [hio, hfd]
    have hcond : (asio_socket_poll sel w conn).2.1.poll_flags &&& POLL_FLAG_SEND ≠ 0 ∧
        buf_data_unread conn.io_ctx.send_buf > 0 := ⟨hready, hu⟩
    rw [if_pos hcond]
    have hpos : ¬ (sys_send (SendOutcome.sent n) conn.fd
        (buf_data_unread conn.io_ctx.send_buf) (asio_socket_poll sel w conn).2.2).1 ≤ 0 := by
      simp only [sys_send, hmin]
      omega
    rw [if_neg hpos, (asio_socket_rw_recv_frame _ _ _).2.2.2]
    simp [sys_send, hmin]
  have htr : Call.send conn.fd (buf_data_unread conn.io_ctx.send_buf) ∈
      (asio_socket_rw sel (SendOutcome.sent n) rcv w conn).2.2.trace := by
    unfold asio_socket_rw
    dsimp only
    rw [hio, hfd]
    have hcond : (asio_socket_poll sel w conn).2.1.poll_flags &&& POLL_FLAG_SEND ≠ 0 ∧
        buf_data_unread conn.io_ctx.send_buf > 0 := ⟨hready, hu⟩
    rw [if_pos hcond]
    have hpos : ¬ (sys_send (SendOutcome.sent n) conn.fd
        (buf_data_unread conn.io_ctx.send_buf) (asio_socket_poll sel w conn).2.2).1 ≤ 0 := by
      simp only [sys_send, hmin]
      omega
    rw [if_neg hpos]
    apply asio_socket_rw_recv_keeps_trace
    simp [sys_send]
  rw [hsb]
  refine ⟨htr, rfl, rfl, rfl, ?_, ?_⟩
  · unfold buf_data_unread buf_drain
    dsimp only
    omega
  · unfold buf_unread_bytes buf_drain
    dsimp only
    rw [List.drop_take, List.drop_drop]
    congr 1
    omega

/-- C9 (witness): two unread bytes, the descriptor is writable, `send` takes
one byte. -/
theorem asio_socket_rw_partial_send_witness :
    (asio_socket_poll select_writable world_fd3 connected_conn).2.1.poll_flags &&&
      POLL_FLAG_SEND ≠ 0 ∧
    buf_data_unread (asio_socket_rw select_writable (SendOutcome.sent 1)
      (RecvOutcome.fail EWOULDBLOCK) world_fd3 connected_conn).2.1.io_ctx.send_buf =
      buf_data_unread connected_conn.io_ctx.send_buf - 1 :=
  ⟨by decide, (asio_socket_rw_partial_send select_writable (RecvOutcome.fail EWOULDBLOCK)
    world_fd3 connected_conn 1 (by decide) (by decide) (by decide)).2.2.2.2.1⟩

end AsioSocket
